import Mathlib

/-!
Verification of the reactor simulation model of `rbwr_desktop_app.py`.

The model state (class `RBWRReactor`) is a record of scalar fields; Python
floats are embedded as rationals so every update is exact.  Each call to
`random.uniform(a, b)` in `RBWRReactor.update` is modelled as one field of a
`Draws` record passed to the update function; a draw is "in range" when it
lies in the interval the Python call samples from.  Python's `int(x)`
truncates toward zero, which `pyInt` reproduces.  The three button handlers
of `RBWRApp` that mutate reactor state (`scram_reactor`,
`toggle_circulation`, `toggle_auto`) are embedded as pure state
transformers; the slider write `reactor.rods_position = rod_scale.get()`
performed before each tick is the `setRods` operation.
-/

/-- The mutable state of the Python class `RBWRReactor`.  Fields that the
Python code sometimes holds as `int` and sometimes as `float` (pressure,
turbine speed, generator load) are uniformly rationals, as in Python both
are just numbers. -/
structure RBWRReactor where
  thermal_power : ℚ
  temperature : ℚ
  pressure : ℚ
  feedwater_flow : ℚ
  turbine_speed : ℚ
  generator_load : ℚ
  rods_position : ℚ
  circulation_flow : ℚ
  xenon_poisoning : ℚ
  fuel_remaining : ℚ
  is_scrammed : Bool
  is_auto : Bool
deriving DecidableEq, Repr

/-- The initial state built by `RBWRReactor.__init__`. -/
def initState : RBWRReactor where
  thermal_power := 1/10000
  temperature := 31
  pressure := 0
  feedwater_flow := 0
  turbine_speed := 0
  generator_load := 0
  rods_position := 0
  circulation_flow := 0
  xenon_poisoning := 101/10
  fuel_remaining := 98
  is_scrammed := false
  is_auto := false

/-- One value for each `random.uniform` call site in `RBWRReactor.update`,
in source order. -/
structure Draws where
  power_noise : ℚ
  temp_noise : ℚ
  pressure_noise : ℚ
  feed_noise : ℚ
  turbine_noise : ℚ
  rods_noise : ℚ
  xenon_noise : ℚ
deriving DecidableEq, Repr

/-- Each draw lies in the interval its `random.uniform(a, b)` call samples
from: `(0.95, 1.05)`, `(-2, 2)`, `(-100, 100)`, `(-10, 10)`, `(-50, 50)`,
`(-0.1, 0.1)`, `(-0.5, 0.5)` respectively. -/
def Draws.inRange (d : Draws) : Prop :=
  19/20 ≤ d.power_noise ∧ d.power_noise ≤ 21/20 ∧
  -2 ≤ d.temp_noise ∧ d.temp_noise ≤ 2 ∧
  -100 ≤ d.pressure_noise ∧ d.pressure_noise ≤ 100 ∧
  -10 ≤ d.feed_noise ∧ d.feed_noise ≤ 10 ∧
  -50 ≤ d.turbine_noise ∧ d.turbine_noise ≤ 50 ∧
  -(1/10) ≤ d.rods_noise ∧ d.rods_noise ≤ 1/10 ∧
  -(1/2) ≤ d.xenon_noise ∧ d.xenon_noise ≤ 1/2

/-- Python's `int(x)` on a float: truncation toward zero. -/
def pyInt (q : ℚ) : ℤ :=
  if q < 0 then ⌈q⌉ else ⌊q⌋

/-- The body of `RBWRReactor.update`.  The scram branch touches only power,
temperature, pressure, turbine speed and generator load and draws no
randomness.  In the normal branch note that `rod_effect` is read from
`rods_position` *before* the auto-mode adjustment, exactly as in the source
(line 35 precedes lines 38-44). -/
def RBWRReactor.update (s : RBWRReactor) (d : Draws) : RBWRReactor :=
  if s.is_scrammed = true then
    { s with
      thermal_power := s.thermal_power * (7/10)
      temperature := s.temperature - 5
      pressure := s.pressure * (8/10)
      turbine_speed := s.turbine_speed * (9/10)
      generator_load := s.thermal_power * (7/10) * 12 }
  else
    let rod_effect : ℚ := (100 - s.rods_position) / 100
    let rods1 : ℚ :=
      if s.is_auto = true then
        if s.thermal_power < 95 then max 0 (s.rods_position - 1/2)
        else min 100 (s.rods_position + 1/2)
      else s.rods_position
    let power_change : ℚ := rod_effect * d.power_noise
    let tp : ℚ := max (1/10000) (min 120 (s.thermal_power * power_change))
    let temp0 : ℚ := 30 + tp * 3 + d.temp_noise
    let rods2 : ℚ :=
      if s.is_auto = true then rods1
      else max 0 (min 100 (rods1 + d.rods_noise))
    let circ : ℚ := min 100 (max 0 s.circulation_flow)
    { s with
      thermal_power := tp
      temperature := if circ < 50 then temp0 + 2 else temp0
      pressure := (pyInt (tp * 60 + d.pressure_noise) : ℚ)
      feedwater_flow := tp * 4 + d.feed_noise
      turbine_speed := (pyInt (tp * 22 + d.turbine_noise) : ℚ)
      generator_load := (pyInt (tp * 12) : ℚ)
      rods_position := rods2
      circulation_flow := circ
      xenon_poisoning := min 35 (101/10 + tp / 5 + d.xenon_noise)
      fuel_remaining := max 0 (s.fuel_remaining - 1/10000) }

/-- `RBWRApp.scram_reactor`: resets the scram flag when scrammed, otherwise
initiates a scram, which also forces auto mode off. -/
def scram_reactor (s : RBWRReactor) : RBWRReactor :=
  if s.is_scrammed = true then
    { s with is_scrammed := false }
  else
    { s with is_scrammed := true, is_auto := false }

/-- `RBWRApp.toggle_circulation`. -/
def toggle_circulation (s : RBWRReactor) : RBWRReactor :=
  if s.circulation_flow < 50 then
    { s with circulation_flow := 100 }
  else
    { s with circulation_flow := 0 }

/-- `RBWRApp.toggle_auto`.  The app never disables the auto button, so this
is invocable in every state, scrammed included. -/
def toggle_auto (s : RBWRReactor) : RBWRReactor :=
  { s with is_auto := !s.is_auto }

/-- One user-visible operation on the reactor state: a simulation tick with
given random draws, a press of one of the three buttons, or the slider
write that the update loop performs before each tick. -/
inductive Op where
  | tick (d : Draws)
  | scramButton
  | autoButton
  | circButton
  | setRods (r : ℚ)
deriving DecidableEq, Repr

/-- Effect of one operation on the reactor state. -/
def applyOp (s : RBWRReactor) : Op → RBWRReactor
  | Op.tick d => s.update d
  | Op.scramButton => scram_reactor s
  | Op.autoButton => toggle_auto s
  | Op.circButton => toggle_circulation s
  | Op.setRods r => { s with rods_position := r }

/-- Run a list of operations from a state, left to right. -/
def runOps (s : RBWRReactor) : List Op → RBWRReactor
  | [] => s
  | op :: rest => runOps (applyOp s op) rest

/-- The domains the specification declares for the bounded fields:
power in [0.0001, 120], rods in [0, 100], xenon in [0, 35],
fuel in [0, 100]. -/
def inDomain (s : RBWRReactor) : Prop :=
  1/10000 ≤ s.thermal_power ∧ s.thermal_power ≤ 120 ∧
  0 ≤ s.rods_position ∧ s.rods_position ≤ 100 ∧
  0 ≤ s.xenon_poisoning ∧ s.xenon_poisoning ≤ 35 ∧
  0 ≤ s.fuel_remaining ∧ s.fuel_remaining ≤ 100

/-- A rational is integer-valued when it is the image of an integer. -/
def isIntegerValued (q : ℚ) : Prop := ∃ n : ℤ, q = (n : ℚ)

/-- Draws with the multiplicative power draw stubbed to 1 and every
additive noise draw stubbed to 0: the noise-free tick. -/
def neutralDraws : Draws where
  power_noise := 1
  temp_noise := 0
  pressure_noise := 0
  feed_noise := 0
  turbine_noise := 0
  rods_noise := 0
  xenon_noise := 0

/-- Draws in which every `random.uniform` call is stubbed to return 1.0,
as claim C5's premise literally reads. -/
def allOneDraws : Draws where
  power_noise := 1
  temp_noise := 1
  pressure_noise := 1
  feed_noise := 1
  turbine_noise := 1
  rods_noise := 1
  xenon_noise := 1

/-- The concrete auto-mode state used to separate the code's rod-effect
computation from the one claim C4 describes. -/
def c4State : RBWRReactor :=
  { initState with is_auto := true, thermal_power := 10, rods_position := 50 }

/-- The concrete starting state of claim C5: rods 0, circulation 100,
manual mode, not scrammed, thermal power 0.0001. -/
def c5State : RBWRReactor :=
  { initState with circulation_flow := 100 }

/-- A scrammed in-domain state with a nonzero integer pressure. -/
def c9State : RBWRReactor :=
  { initState with is_scrammed := true, pressure := 1 }

/-- The initial state with the scram flag raised. -/
def scrammedInit : RBWRReactor :=
  { initState with is_scrammed := true }

/-- States reachable from the initial state by ticks with in-range draws,
button presses, and in-range slider writes.  The auto button is available
in every state, scrammed included, because `RBWRApp.scram_reactor` only
disables the slider and the circulation button. -/
inductive Reachable : RBWRReactor → Prop where
  | init : Reachable initState
  | tick (s : RBWRReactor) (d : Draws) (hs : Reachable s) (hd : d.inRange) :
      Reachable (s.update d)
  | scramButton (s : RBWRReactor) (hs : Reachable s) :
      Reachable (scram_reactor s)
  | circButton (s : RBWRReactor) (hs : Reachable s) :
      Reachable (toggle_circulation s)
  | autoButton (s : RBWRReactor) (hs : Reachable s) :
      Reachable (toggle_auto s)
  | setRods (s : RBWRReactor) (r : ℚ) (hs : Reachable s)
      (h0 : 0 ≤ r) (h1 : r ≤ 100) :
      Reachable { s with rods_position := r }

/-- Same reachable-state relation, but with the auto button restricted to
non-scrammed states, the discipline the specification assumes. -/
inductive ReachableGuarded : RBWRReactor → Prop where
  | init : ReachableGuarded initState
  | tick (s : RBWRReactor) (d : Draws) (hs : ReachableGuarded s) (hd : d.inRange) :
      ReachableGuarded (s.update d)
  | scramButton (s : RBWRReactor) (hs : ReachableGuarded s) :
      ReachableGuarded (scram_reactor s)
  | circButton (s : RBWRReactor) (hs : ReachableGuarded s) :
      ReachableGuarded (toggle_circulation s)
  | autoButton (s : RBWRReactor) (hs : ReachableGuarded s)
      (hns : s.is_scrammed = false) :
      ReachableGuarded (toggle_auto s)
  | setRods (s : RBWRReactor) (r : ℚ) (hs : ReachableGuarded s)
      (h0 : 0 ≤ r) (h1 : r ≤ 100) :
      ReachableGuarded { s with rods_position := r }

/-- What a tick does in the scram branch, as one record equation. -/
lemma update_scram_eq (s : RBWRReactor) (d : Draws) (h : s.is_scrammed = true) :
    s.update d =
      { s with
        thermal_power := s.thermal_power * (7/10)
        temperature := s.temperature - 5
        pressure := s.pressure * (8/10)
        turbine_speed := s.turbine_speed * (9/10)
        generator_load := s.thermal_power * (7/10) * 12 } := by
  simp [RBWRReactor.update, h]

/-- What a tick does in the normal branch, as one record equation with the
local `let`s of the source substituted. -/
lemma update_normal_eq (s : RBWRReactor) (d : Draws) (h : s.is_scrammed = false) :
    s.update d =
      { s with
        thermal_power :=
          max (1/10000) (min 120 (s.thermal_power *
            ((100 - s.rods_position) / 100 * d.power_noise)))
        temperature :=
          (if min 100 (max 0 s.circulation_flow) < 50 then
            30 + max (1/10000) (min 120 (s.thermal_power *
              ((100 - s.rods_position) / 100 * d.power_noise))) * 3 + d.temp_noise + 2
          else
            30 + max (1/10000) (min 120 (s.thermal_power *
              ((100 - s.rods_position) / 100 * d.power_noise))) * 3 + d.temp_noise)
        pressure :=
          (pyInt (max (1/10000) (min 120 (s.thermal_power *
            ((100 - s.rods_position) / 100 * d.power_noise))) * 60 + d.pressure_noise) : ℚ)
        feedwater_flow :=
          max (1/10000) (min 120 (s.thermal_power *
            ((100 - s.rods_position) / 100 * d.power_noise))) * 4 + d.feed_noise
        turbine_speed :=
          (pyInt (max (1/10000) (min 120 (s.thermal_power *
            ((100 - s.rods_position) / 100 * d.power_noise))) * 22 + d.turbine_noise) : ℚ)
        generator_load :=
          (pyInt (max (1/10000) (min 120 (s.thermal_power *
            ((100 - s.rods_position) / 100 * d.power_noise))) * 12) : ℚ)
        rods_position :=
          (if s.is_auto = true then
            (if s.thermal_power < 95 then max 0 (s.rods_position - 1/2)
             else min 100 (s.rods_position + 1/2))
          else
            max 0 (min 100 (s.rods_position + d.rods_noise)))
        circulation_flow := min 100 (max 0 s.circulation_flow)
        xenon_poisoning :=
          min 35 (101/10 + max (1/10000) (min 120 (s.thermal_power *
            ((100 - s.rods_position) / 100 * d.power_noise))) / 5 + d.xenon_noise)
        fuel_remaining := max 0 (s.fuel_remaining - 1/10000) } := by
  by_cases ha : s.is_auto = true <;>
    simp [RBWRReactor.update, h, ha]

lemma update_is_scrammed (s : RBWRReactor) (d : Draws) :
    (s.update d).is_scrammed = s.is_scrammed := by
  unfold RBWRReactor.update
  split <;> rfl

lemma update_is_auto (s : RBWRReactor) (d : Draws) :
    (s.update d).is_auto = s.is_auto := by
  unfold RBWRReactor.update
  split <;> rfl

/-- Claim C3: initiating a scram forces auto mode off, and a tick taken
while scrammed multiplies thermal power by exactly 0.7 and pressure by
exactly 0.8, independently of every random draw (the scram branch reads
none of them). -/
theorem c3_scram_decay (s t : RBWRReactor) (d e : Draws)
    (hs : s.is_scrammed = false) (ht : t.is_scrammed = true) :
    (scram_reactor s).is_auto = false ∧
    (t.update d).thermal_power = t.thermal_power * (7/10) ∧
    (t.update d).pressure = t.pressure * (8/10) ∧
    t.update d = t.update e := by
  refine ⟨by simp [scram_reactor, hs], ?_, ?_, ?_⟩
  · rw [update_scram_eq t d ht]
  · rw [update_scram_eq t d ht]
  · rw [update_scram_eq t d ht, update_scram_eq t e ht]

/-- Closed instance of claim C3 at concrete inputs. -/
theorem c3_scram_decay_witness :
    initState.is_scrammed = false ∧ scrammedInit.is_scrammed = true ∧
    ((scram_reactor initState).is_auto = false ∧
     (scrammedInit.update neutralDraws).thermal_power =
       scrammedInit.thermal_power * (7/10) ∧
     (scrammedInit.update neutralDraws).pressure =
       scrammedInit.pressure * (8/10) ∧
     scrammedInit.update neutralDraws = scrammedInit.update allOneDraws) :=
  ⟨rfl, rfl, c3_scram_decay initState scrammedInit neutralDraws allOneDraws rfl rfl⟩

/-- Claim C7: from a non-scrammed state, scram followed immediately by
reset-scram leaves auto mode off and every other field exactly as it
was. -/
theorem c7_scram_reset_frame (s : RBWRReactor) (h : s.is_scrammed = false) :
    scram_reactor (scram_reactor s) = { s with is_auto := false } := by
  cases s
  simp_all [scram_reactor]

/-- Closed instance of claim C7 at the initial state. -/
theorem c7_scram_reset_frame_witness :
    initState.is_scrammed = false ∧
    scram_reactor (scram_reactor initState) = { initState with is_auto := false } :=
  ⟨rfl, c7_scram_reset_frame initState rfl⟩

/-- Claim C8: the circulation toggle sets circulation flow to 100 when it
is below 50 and to 0 otherwise and touches no other field; from flow below
50, two consecutive presses give 100 then 0. -/
theorem c8_circulation_toggle (s : RBWRReactor) :
    toggle_circulation s =
      { s with circulation_flow := if s.circulation_flow < 50 then 100 else 0 } ∧
    (s.circulation_flow < 50 →
      (toggle_circulation s).circulation_flow = 100 ∧
      (toggle_circulation (toggle_circulation s)).circulation_flow = 0) := by
  constructor
  · by_cases h : s.circulation_flow < 50 <;> simp [toggle_circulation, h]
  · intro h
    refine ⟨by simp [toggle_circulation, h], ?_⟩
    norm_num [toggle_circulation, h]

/-- Closed instance of claim C8 at the initial state, whose circulation
flow is 0. -/
theorem c8_circulation_toggle_witness :
    initState.circulation_flow < 50 ∧
    (toggle_circulation initState).circulation_flow = 100 ∧
    (toggle_circulation (toggle_circulation initState)).circulation_flow = 0 :=
  ⟨by norm_num [initState], (c8_circulation_toggle initState).2 (by norm_num [initState])⟩

/-- Claim C5 (amended): from rods 0, circulation 100, manual mode, not
scrammed, thermal power 0.0001, a noise-free tick (multiplicative power
draw stubbed to 1, every additive noise draw stubbed to 0) yields thermal
power exactly 0.0001, temperature exactly 30.0003, and pressure
int(0.0001*60) = 0. -/
theorem c5_noise_free_tick :
    (c5State.update neutralDraws).thermal_power = 1/10000 ∧
    (c5State.update neutralDraws).temperature = 300003/10000 ∧
    (c5State.update neutralDraws).pressure = 0 := by
  norm_num [c5State, initState, RBWRReactor.update, neutralDraws, pyInt]

/-- Claim C5 as stated is false: stubbing every draw to 1.0, as its
premise reads, makes the tick produce temperature 31.0003 (not 30.0003)
and pressure int(1.006) = 1 (not 0), because the additive noise draws
also return 1.0. -/
theorem c5_counterexample :
    (c5State.update allOneDraws).thermal_power = 1/10000 ∧
    (c5State.update allOneDraws).temperature = 310003/10000 ∧
    (c5State.update allOneDraws).temperature ≠ 300003/10000 ∧
    (c5State.update allOneDraws).pressure = 1 ∧
    (c5State.update allOneDraws).pressure ≠ 0 := by
  norm_num [c5State, initState, RBWRReactor.update, allOneDraws, pyInt]

/-- Claim C9 (amended): after every non-scrammed tick, pressure and
generator load are integer-valued, being images of Python's `int`. -/
theorem c9_integer_outputs (s : RBWRReactor) (d : Draws)
    (h : s.is_scrammed = false) :
    isIntegerValued (s.update d).pressure ∧
    isIntegerValued (s.update d).generator_load := by
  unfold isIntegerValued
  rw [update_normal_eq s d h]
  exact ⟨⟨_, rfl⟩, ⟨_, rfl⟩⟩

/-- Closed instance of the amended claim C9 at the initial state. -/
theorem c9_integer_outputs_witness :
    initState.is_scrammed = false ∧
    (isIntegerValued (initState.update neutralDraws).pressure ∧
     isIntegerValued (initState.update neutralDraws).generator_load) :=
  ⟨rfl, c9_integer_outputs initState neutralDraws rfl⟩

/-- Claim C9 as stated is false: a tick taken while scrammed multiplies
pressure by 0.8 and sets generator load to 12 times the decayed thermal
power with no `int` conversion, so from pressure 1 and thermal power
0.0001 the tick produces pressure 4/5 and generator load 21/25000,
neither an integer. -/
theorem c9_counterexample :
    c9State.is_scrammed = true ∧
    ¬ isIntegerValued (c9State.update neutralDraws).pressure ∧
    ¬ isIntegerValued (c9State.update neutralDraws).generator_load := by
  refine ⟨rfl, ?_, ?_⟩
  · have h1 : (c9State.update neutralDraws).pressure = 4/5 := by
      rw [update_scram_eq c9State neutralDraws rfl]
      norm_num [c9State, initState]
    rw [h1]
    rintro ⟨n, hn⟩
    have h2 : (4 : ℚ) = 5 * (n : ℚ) := by linarith
    have h3 : (4 : ℤ) = 5 * n := by exact_mod_cast h2
    omega
  · have h1 : (c9State.update neutralDraws).generator_load = 21/25000 := by
      rw [update_scram_eq c9State neutralDraws rfl]
      norm_num [c9State, initState]
    rw [h1]
    rintro ⟨n, hn⟩
    have h2 : (21 : ℚ) = 25000 * (n : ℚ) := by linarith
    have h3 : (21 : ℤ) = 25000 * n := by exact_mod_cast h2
    omega

/-- Claim C4 (amended): in a non-scrammed auto-mode tick the rods move by
0.5 toward the 95% power target, and thermal power is updated with
rodEffect computed from the rods position *before* that adjustment. -/
theorem c4_auto_adjustment (s : RBWRReactor) (d : Draws)
    (h1 : s.is_scrammed = false) (h2 : s.is_auto = true) :
    (s.update d).rods_position =
      (if s.thermal_power < 95 then max 0 (s.rods_position - 1/2)
       else min 100 (s.rods_position + 1/2)) ∧
    (s.update d).thermal_power =
      max (1/10000) (min 120 (s.thermal_power *
        ((100 - s.rods_position) / 100 * d.power_noise))) := by
  rw [update_normal_eq s d h1]
  exact ⟨by simp [h2], rfl⟩

/-- Closed instance of the amended claim C4 at a concrete auto-mode
state. -/
theorem c4_auto_adjustment_witness :
    c4State.is_scrammed = false ∧ c4State.is_auto = true ∧
    ((c4State.update neutralDraws).rods_position =
      (if c4State.thermal_power < 95 then max 0 (c4State.rods_position - 1/2)
       else min 100 (c4State.rods_position + 1/2)) ∧
     (c4State.update neutralDraws).thermal_power =
      max (1/10000) (min 120 (c4State.thermal_power *
        ((100 - c4State.rods_position) / 100 * neutralDraws.power_noise)))) :=
  ⟨rfl, rfl, c4_auto_adjustment c4State neutralDraws rfl rfl⟩

/-- Claim C4 as stated is false: from thermal power 10, rods 50, auto
mode, a tick with the power draw stubbed to 1 adjusts the rods to 49.5
but computes thermal power 5 from the old rod effect 0.5, not the 5.05
that the adjusted rods position 49.5 would give. -/
theorem c4_counterexample :
    (c4State.update neutralDraws).rods_position = 99/2 ∧
    (c4State.update neutralDraws).thermal_power = 5 ∧
    max (1/10000) (min 120 (c4State.thermal_power *
      ((100 - (c4State.update neutralDraws).rods_position) / 100 *
        neutralDraws.power_noise))) = 101/20 ∧
    (5 : ℚ) ≠ 101/20 := by
  norm_num [c4State, initState, RBWRReactor.update, neutralDraws]

/-- Claim C2 as stated is false: the app never disables the auto button,
so pressing scram and then the auto button leaves the reactor both
scrammed and in auto mode. -/
theorem c2_counterexample :
    (runOps initState [Op.scramButton, Op.autoButton]).is_scrammed = true ∧
    (runOps initState [Op.scramButton, Op.autoButton]).is_auto = true := by
  constructor <;> rfl

/-- Claim C2 (amended): along every operation sequence that presses the
auto button only while not scrammed, the scram and auto flags are never
both set. -/
theorem c2_mutual_exclusion (s : RBWRReactor) (h : ReachableGuarded s) :
    ¬ (s.is_scrammed = true ∧ s.is_auto = true) := by
  induction h with
  | init => simp [initState]
  | tick s d hs hd ih => simpa [update_is_scrammed, update_is_auto] using ih
  | scramButton s hs ih =>
      unfold scram_reactor
      split <;> simp
  | circButton s hs ih =>
      unfold toggle_circulation
      split <;> simpa using ih
  | autoButton s hs hns ih => simp [toggle_auto, hns]
  | setRods s r hs h0 h1 ih => simpa using ih

/-- Closed instance of the amended claim C2 at the initial state. -/
theorem c2_mutual_exclusion_witness :
    ¬ (initState.is_scrammed = true ∧ initState.is_auto = true) :=
  c2_mutual_exclusion initState ReachableGuarded.init

/-- Claim C10: thermal power is strictly positive in every state reachable
from the initial state by any operation sequence and any outcome of the
draws. -/
theorem c10_thermal_power_positive (s : RBWRReactor) (h : Reachable s) :
    0 < s.thermal_power := by
  induction h with
  | init => norm_num [initState]
  | tick s d hs hd ih =>
      by_cases hsc : s.is_scrammed = true
      · rw [update_scram_eq s d hsc]
        exact mul_pos ih (by norm_num)
      · have hsc2 : s.is_scrammed = false := by simpa using hsc
        rw [update_normal_eq s d hsc2]
        exact lt_of_lt_of_le (by norm_num) (le_max_left _ _)
  | scramButton s hs ih =>
      unfold scram_reactor
      split <;> exact ih
  | circButton s hs ih =>
      unfold toggle_circulation
      split <;> exact ih
  | autoButton s hs ih => exact ih
  | setRods s r hs h0 h1 ih => exact ih

/-- Closed instance of claim C10 at the initial state. -/
theorem c10_thermal_power_positive_witness : 0 < initState.thermal_power :=
  c10_thermal_power_positive initState Reachable.init

lemma update_fuel (s : RBWRReactor) (d : Draws) (h : 0 ≤ s.fuel_remaining) :
    (s.update d).fuel_remaining ≤ s.fuel_remaining ∧
    0 ≤ (s.update d).fuel_remaining := by
  by_cases hsc : s.is_scrammed = true
  · rw [update_scram_eq s d hsc]
    exact ⟨le_refl _, h⟩
  · have hsc2 : s.is_scrammed = false := by simpa using hsc
    rw [update_normal_eq s d hsc2]
    exact ⟨max_le h (by linarith), le_max_left _ _⟩

lemma applyOp_fuel (s : RBWRReactor) (op : Op) (h : 0 ≤ s.fuel_remaining) :
    (applyOp s op).fuel_remaining ≤ s.fuel_remaining ∧
    0 ≤ (applyOp s op).fuel_remaining := by
  cases op with
  | tick d => exact update_fuel s d h
  | scramButton =>
      show (scram_reactor s).fuel_remaining ≤ s.fuel_remaining ∧
        0 ≤ (scram_reactor s).fuel_remaining
      unfold scram_reactor
      split
      · exact ⟨le_refl s.fuel_remaining, h⟩
      · exact ⟨le_refl s.fuel_remaining, h⟩
  | autoButton => exact ⟨le_refl s.fuel_remaining, h⟩
  | circButton =>
      show (toggle_circulation s).fuel_remaining ≤ s.fuel_remaining ∧
        0 ≤ (toggle_circulation s).fuel_remaining
      unfold toggle_circulation
      split
      · exact ⟨le_refl s.fuel_remaining, h⟩
      · exact ⟨le_refl s.fuel_remaining, h⟩
  | setRods r => exact ⟨le_refl s.fuel_remaining, h⟩

/-- Claim C6: from any state with nonnegative fuel (the declared domain),
fuel remaining never increases along any operation sequence, whatever mix
of modes and draw outcomes occurs. -/
theorem c6_fuel_monotone (s : RBWRReactor) (ops : List Op)
    (h : 0 ≤ s.fuel_remaining) :
    (runOps s ops).fuel_remaining ≤ s.fuel_remaining := by
  induction ops generalizing s with
  | nil => exact le_refl _
  | cons op rest ih =>
      have hstep := applyOp_fuel s op h
      have htail := ih (applyOp s op) hstep.2
      calc (runOps s (op :: rest)).fuel_remaining
          = (runOps (applyOp s op) rest).fuel_remaining := rfl
        _ ≤ (applyOp s op).fuel_remaining := htail
        _ ≤ s.fuel_remaining := hstep.1

/-- Closed instance of claim C6 on a concrete three-operation run. -/
theorem c6_fuel_monotone_witness :
    0 ≤ initState.fuel_remaining ∧
    (runOps initState
      [Op.tick neutralDraws, Op.scramButton, Op.tick neutralDraws]).fuel_remaining ≤
      initState.fuel_remaining :=
  ⟨by norm_num [initState],
   c6_fuel_monotone initState
     [Op.tick neutralDraws, Op.scramButton, Op.tick neutralDraws]
     (by norm_num [initState])⟩

/-- Claim C1 as stated is false: the initial state with the scram flag
raised is in-domain, yet one scram tick multiplies thermal power 0.0001 by
0.7, leaving 0.00007, below the declared lower bound 0.0001. -/
theorem c1_counterexample :
    inDomain scrammedInit ∧ neutralDraws.inRange ∧
    ¬ inDomain (scrammedInit.update neutralDraws) := by
  refine ⟨?_, ?_, ?_⟩
  · norm_num [inDomain, scrammedInit, initState]
  · norm_num [Draws.inRange, neutralDraws]
  · rw [update_scram_eq scrammedInit neutralDraws rfl]
    norm_num [inDomain, scrammedInit, initState]

/-- Claim C1 (amended): from an in-domain state with in-range draws, a
non-scrammed tick keeps every bounded field in its declared domain; a
scrammed tick keeps rods, xenon and fuel in their domains and keeps
thermal power positive and at most 120, but may take it below 0.0001. -/
theorem c1_domain_preservation (s : RBWRReactor) (d : Draws)
    (hs : inDomain s) (hd : d.inRange) :
    (s.is_scrammed = false → inDomain (s.update d)) ∧
    (s.is_scrammed = true →
      0 < (s.update d).thermal_power ∧ (s.update d).thermal_power ≤ 120 ∧
      0 ≤ (s.update d).rods_position ∧ (s.update d).rods_position ≤ 100 ∧
      0 ≤ (s.update d).xenon_poisoning ∧ (s.update d).xenon_poisoning ≤ 35 ∧
      0 ≤ (s.update d).fuel_remaining ∧ (s.update d).fuel_remaining ≤ 100) := by
  obtain ⟨h1, h2, h3, h4, h5, h6, h7, h8⟩ := hs
  obtain ⟨e1, e2, e3, e4, e5, e6, e7, e8, e9, e10, e11, e12, e13, e14⟩ := hd
  constructor
  · intro hns
    rw [update_normal_eq s d hns]
    have htp0 : (1/10000 : ℚ) ≤
        max (1/10000) (min 120 (s.thermal_power *
          ((100 - s.rods_position) / 100 * d.power_noise))) :=
      le_max_left _ _
    refine ⟨le_max_left _ _, max_le (by norm_num) (min_le_left _ _),
      ?_, ?_, ?_, min_le_left _ _, le_max_left _ _,
      max_le (by norm_num) (by linarith)⟩
    · by_cases ha : s.is_auto = true
      · rw [if_pos ha]
        by_cases hp : s.thermal_power < 95
        · rw [if_pos hp]
          exact le_max_left _ _
        · rw [if_neg hp]
          exact le_min (by norm_num) (by linarith)
      · rw [if_neg ha]
        exact le_max_left _ _
    · by_cases ha : s.is_auto = true
      · rw [if_pos ha]
        by_cases hp : s.thermal_power < 95
        · rw [if_pos hp]
          exact max_le (by norm_num) (by linarith)
        · rw [if_neg hp]
          exact min_le_left _ _
      · rw [if_neg ha]
        exact max_le (by norm_num) (min_le_left _ _)
    · exact le_min (by norm_num) (by linarith)
  · intro hsc
    rw [update_scram_eq s d hsc]
    exact ⟨mul_pos (by linarith) (by norm_num), by linarith,
      h3, h4, h5, h6, h7, h8⟩

/-- Closed instance of the amended claim C1 at the initial state with
noise-free draws. -/
theorem c1_domain_preservation_witness :
    inDomain initState ∧ neutralDraws.inRange ∧
    ((initState.is_scrammed = false → inDomain (initState.update neutralDraws)) ∧
     (initState.is_scrammed = true →
       0 < (initState.update neutralDraws).thermal_power ∧
       (initState.update neutralDraws).thermal_power ≤ 120 ∧
       0 ≤ (initState.update neutralDraws).rods_position ∧
       (initState.update neutralDraws).rods_position ≤ 100 ∧
       0 ≤ (initState.update neutralDraws).xenon_poisoning ∧
       (initState.update neutralDraws).xenon_poisoning ≤ 35 ∧
       0 ≤ (initState.update neutralDraws).fuel_remaining ∧
       (initState.update neutralDraws).fuel_remaining ≤ 100)) :=
  ⟨by norm_num [inDomain, initState],
   by norm_num [Draws.inRange, neutralDraws],
   c1_domain_preservation initState neutralDraws
     (by norm_num [inDomain, initState])
     (by norm_num [Draws.inRange, neutralDraws])⟩
